import Mathlib

/-!
Shallow embedding of the query caching and preload decision engine from
src/queriedEntity/queriedEntity.js (the queried-entity higher-order component).

JS objects holding query parameters are embedded as association lists
(`Params`); JS object spread `\x7b...a, ...b\x7d` becomes `jsMerge`; the redux
cache bucket becomes an association list from cache keys to records; the
asynchronous query/mutation flows are embedded as pure functions from the
pre-call state (plus the eventual fetch outcome) to the synchronous event
trace, the dispatched actions and the final component state.
-/

namespace RestRedux

/-- A JS object of query parameters: string keys to string values, in
insertion order. A real JS object never has duplicate keys, so theorems
may assume the key list is `Nodup`. -/
abbrev Params := List (String × String)

/-- Property read `obj[k]` on a parameter object: the value of the first
binding of key `k` (association lists representing JS objects have at most
one binding per key). -/
def getParam (l : Params) (k : String) : Option String :=
  (l.find? (fun p => p.1 == k)).map (fun p => p.2)

/-- JS object spread `\x7b...a, ...b\x7d`: the keys of `a` in order with values
overridden by `b` where present, followed by the keys of `b` not in `a`,
in order. -/
def jsMerge (a b : Params) : Params :=
  (a.map (fun p =>
    match b.find? (fun q => q.1 == p.1) with
    | some q => (p.1, q.2)
    | none => p))
  ++ b.filter (fun q => !(a.any (fun p => p.1 == q.1)))

/-- A cache record stored in the redux bucket under a cache key: either the
LOADING sentinel written while a fetch is in flight, or a data record whose
only modelled metadata is the optional `preloadedAt` timestamp (payload
fields are irrelevant to the decision logic embedded here). -/
inductive CacheRecord where
  | loading
  | entry (preloadedAt : Option Int)
  deriving DecidableEq, Repr

/-- The per-entity-type cache bucket: cache keys to records. -/
abbrev Cache := List (String × CacheRecord)

/-- Bucket read `bucket[key]`. -/
def cacheGet (c : Cache) (k : String) : Option CacheRecord :=
  c.lookup k

/-- Lexicographic strict order on strings, expressed on the underlying
character lists so that its decidability instance evaluates by kernel
reduction. -/
def strLT (a b : String) : Prop :=
  List.Lex (fun c d : Char => c < d) a.data b.data

instance : DecidableRel strLT := fun a b => by
  unfold strLT; infer_instance

theorem strLT_trans {a b c : String} (h1 : strLT a b) (h2 : strLT b c) : strLT a c :=
  IsTrans.trans (r := List.Lex (fun c d : Char => c < d)) a.data b.data c.data h1 h2

theorem strLT_irrefl (a : String) : ¬ strLT a a :=
  irrefl_of (List.Lex (fun c d : Char => c < d)) a.data

theorem strLT_trichotomy (a b : String) : strLT a b ∨ a = b ∨ strLT b a := by
  rcases trichotomous_of (List.Lex (fun c d : Char => c < d)) a.data b.data with h | h | h
  · exact Or.inl h
  · refine Or.inr (Or.inl ?_)
    cases a; cases b; cases h; rfl
  · exact Or.inr (Or.inr h)

/-- Ordering of parameter entries by key (lexicographic on strings), with
value as tie-breaker so the relation is antisymmetric on entries. -/
def paramLE (a b : String × String) : Prop :=
  strLT a.1 b.1 ∨ (a.1 = b.1 ∧ (strLT a.2 b.2 ∨ a.2 = b.2))

instance : DecidableRel paramLE := fun a b => by
  unfold paramLE; infer_instance

instance : IsTotal (String × String) paramLE := by
  constructor
  intro a b
  rcases strLT_trichotomy a.1 b.1 with h | h | h
  · exact Or.inl (Or.inl h)
  · rcases strLT_trichotomy a.2 b.2 with h2 | h2 | h2
    · exact Or.inl (Or.inr ⟨h, Or.inl h2⟩)
    · exact Or.inl (Or.inr ⟨h, Or.inr h2⟩)
    · exact Or.inr (Or.inr ⟨h.symm, Or.inl h2⟩)
  · exact Or.inr (Or.inl h)

instance : IsTrans (String × String) paramLE := by
  constructor
  intro a b c hab hbc
  rcases hab with h1 | ⟨h1, v1⟩
  · rcases hbc with h2 | ⟨h2, _⟩
    · exact Or.inl (strLT_trans h1 h2)
    · exact Or.inl (h2 ▸ h1)
  · rcases hbc with h2 | ⟨h2, v2⟩
    · exact Or.inl (h1 ▸ h2)
    · refine Or.inr ⟨h1.trans h2, ?_⟩
      rcases v1 with v1 | v1
      · rcases v2 with v2 | v2
        · exact Or.inl (strLT_trans v1 v2)
        · exact Or.inl (v2 ▸ v1)
      · rcases v2 with v2 | v2
        · exact Or.inl (v1 ▸ v2)
        · exact Or.inr (v1.trans v2)

instance : IsAntisymm (String × String) paramLE := by
  constructor
  intro a b hab hba
  rcases hab with h1 | ⟨h1, v1⟩
  · rcases hba with h2 | ⟨h2, _⟩
    · exact absurd (strLT_trans h1 h2) (strLT_irrefl a.1)
    · exact absurd h1 (h2 ▸ strLT_irrefl b.1)
  · rcases hba with h2 | ⟨h2, v2⟩
    · exact absurd h2 (h1 ▸ strLT_irrefl b.1)
    · rcases v1 with v1 | v1
      · rcases v2 with v2 | v2
        · exact absurd (strLT_trans v1 v2) (strLT_irrefl a.2)
        · exact absurd v1 (v2 ▸ strLT_irrefl b.2)
      · exact Prod.ext h1 v1

/-- Sort parameter entries by key. -/
def sortParams (l : Params) : Params :=
  l.insertionSort paramLE

/-- Modelled from the spec: `encodeAPICall` lives in src/helpers.js, which is
not part of the provided sources. The spec prescribes a pure encoder that
sorts parameter keys lexicographically and concatenates `key=value` pairs
joined by a stable delimiter, prefixed by the url. -/
def encodeAPICall (url : String) (params : Params) : String :=
  url ++ "?" ++ String.intercalate "&"
    ((sortParams params).map (fun p => p.1 ++ "=" ++ p.2))

/-- JS string coercion of a possibly-undefined url value. -/
def urlString : Option String → String
  | some u => u
  | none => "undefined"

/-- Cache key for a possibly-undefined url and a parameter object. -/
def encodeKey (url? : Option String) (p : Params) : String :=
  encodeAPICall (urlString url?) p

/-- Default number of queries to cache in store (RETAIN_NUMBER). -/
def RETAIN_NUMBER : Nat := 10

/-- Default time for a valid preload, milliseconds (PRELOAD_VALID_TIME). -/
def PRELOAD_VALID_TIME : Int := 10000

/-- Default time compared with the average network time to decide whether to
perform a preload, milliseconds (SMART_THRESHOLD_TIME). -/
def SMART_THRESHOLD_TIME : Int := 300

/-- Determines whether a network call should be made to refresh, translated
from `shouldLoad` in queriedEntity.js: no record means load; the LOADING
sentinel means do not load; a record preloaded less than `preloadValidTime`
ago means do not load; anything else means load. `now` stands for the value
of `new Date()` at the moment of the check. -/
def shouldLoad (now preloadValidTime : Int) : Option CacheRecord → Bool
  | none => true
  | some CacheRecord.loading => false
  | some (CacheRecord.entry preloadedAt) =>
    match preloadedAt with
    | some t0 => if now - t0 < preloadValidTime then false else true
    | none => true

/-- The per-entity-type network timer kept in the store: running average
latency and number of completed calls. -/
structure NetworkTimer where
  average : Int
  numberOfCalls : Nat
  deriving DecidableEq, Repr

/-- The slice of the redux store read by the component: the cache bucket for
the entity type and its network timer. -/
structure Store where
  cache : Cache
  networkTimer : NetworkTimer
  deriving DecidableEq, Repr

/-- The component state: active url (absent before `initialQuery`), active
params and the loading flag, as in `state = \x7bparams: \x7b\x7d, loadingData: false\x7d`
with `url` set by `initialQuery`. -/
structure CState where
  url : Option String
  params : Params
  loadingData : Bool
  deriving DecidableEq, Repr

/-- The configuration closed over by the higher-order component. -/
structure Config where
  entityName : String
  hideLoadIfDataFound : Bool
  retain_number : Nat
  preloadValidTime : Int
  smartPreload : Bool
  smartThresholdTime : Int
  deriving DecidableEq, Repr

/-- The kind of a mutation operation. -/
inductive MutKind where
  | create
  | update
  | patch
  | delete
  deriving DecidableEq, Repr

/-- The argument of a mutation: `delete` accepts either a bare identifier
string or an entity object. -/
inductive Entity where
  | ident (s : String)
  | obj (fields : List (String × String))
  deriving DecidableEq, Repr

/-- The externally observable actions the component dispatches, in program
order. `fetch` stands for a dispatched `queryEntities(entityName, url,
params, markLoading, isPreload, adaptiveSkip)`; `mutateDispatch` for a
dispatched create/update/patch/delete action; `queryRefresh ps` for a
re-issued `query()` with active params `ps`; `pushQueue` for
`pushToQueue(entityName, key, retain_number)`. -/
inductive Event where
  | freeze
  | unfreeze
  | consultPredictor
  | fetch (url : String) (params : Params) (markLoading : Bool)
      (isPreload : Bool) (adaptiveSkip : Bool)
  | mutateDispatch (kind : MutKind) (entity : Entity)
  | queryRefresh (params : Params)
  | pushQueue (key : String) (limit : Nat)
  deriving DecidableEq, Repr

/-- Recognizes dispatched `queryEntities` events. -/
def isFetchEvent : Event → Bool
  | Event.fetch _ _ _ _ _ => true
  | _ => false

/-- The registered preLoaderFunc: receives the supplied params, the merged
params and the metadata of the record cached at the supplied params (the
record is passed in place of the JS metadata object, whose payload fields
are not modelled), and returns the list of parameter sets to preload. -/
abbrev PreFn := Params → Params → Option CacheRecord → List Params

/-- The `preload` method translated from queriedEntity.js, as the list of
events it emits synchronously. `stParams` is `this.state.params` at entry
(the params written by the enclosing `query` call). Completion handlers of
preload fetches only run `collectGarbage` and swallow failures; they are
not part of the synchronous trace. -/
def preload (cfg : Config) (preLoader : Option PreFn) (store : Store)
    (stParams : Params) (params : Params) (url? : Option String) : List Event :=
  match preLoader with
  | none => []
  | some f =>
    if cfg.smartPreload ∧ store.networkTimer.numberOfCalls > 3 ∧
        store.networkTimer.average > cfg.smartThresholdTime then []
    else
      let queryData := cacheGet store.cache (encodeKey url? params)
      let paramsList := f params (jsMerge stParams params) queryData
      Event.consultPredictor ::
        paramsList.filterMap (fun p =>
          let fullParams := jsMerge stParams p
          match cacheGet store.cache (encodeKey url? fullParams) with
          | some _ => none
          | none => some (Event.fetch (urlString url?) fullParams true true
              cfg.smartPreload))

/-- The synchronous phase of a `query` call: everything up to (and
including) the dispatch of `queryEntities`, before its promise settles. -/
structure QuerySync where
  oldParams : Params
  newParams : Params
  stMid : CState
  trace : List Event
  dispatched : Bool
  markLoading : Bool
  deriving DecidableEq, Repr

/-- The `query` method translated from queriedEntity.js, synchronous phase:
compute `oldParams`/`newParams`, set state, read the cached record, freeze
when there is no data (or the configuration always shows the loading
indicator), run `preload`, and dispatch `queryEntities` unless `shouldLoad`
says otherwise. `setState` is modelled as a synchronous state update, per
the single-threaded event-loop model. -/
def querySync (cfg : Config) (preLoader : Option PreFn) (store : Store)
    (st : CState) (params : Params) (url? : Option String) (initial : Bool)
    (now : Int) : QuerySync :=
  let oldParams := if initial then params else st.params
  let newParams := jsMerge oldParams params
  let stMid : CState := { st with params := newParams, loadingData := true }
  let data := cacheGet store.cache (encodeKey url? newParams)
  let freezeEvents := if data = none ∨ ¬ cfg.hideLoadIfDataFound then
    [Event.freeze] else []
  let preloadEvents := preload cfg preLoader store stMid.params params url?
  let doLoad := shouldLoad now cfg.preloadValidTime data
  { oldParams := oldParams, newParams := newParams, stMid := stMid,
    trace := freezeEvents ++ preloadEvents ++
      (if doLoad then
        [Event.fetch (urlString url?) newParams (decide (data = none)) false
          cfg.smartPreload]
      else []),
    dispatched := doLoad, markLoading := decide (data = none) }

/-- Whether the dispatched fetch eventually succeeds or fails. -/
inductive FetchOutcome where
  | success
  | failure
  deriving DecidableEq, Repr

/-- The settled result of a `query` call: the final component state, the
completion-handler events and whether the returned promise rejects. -/
structure QueryDone where
  finalState : CState
  trace : List Event
  rejects : Bool
  deriving DecidableEq, Repr

/-- The completion phase of a `query` call: when nothing was dispatched the
call returns `Promise.resolve()` with no further effects; on success the
then-handler clears `loadingData`, unfreezes and collects garbage; on
failure the catch-handler clears `loadingData`, restores `oldParams` and
unfreezes, and the returned promise still resolves (the catch handler does
not re-throw). -/
def queryComplete (cfg : Config) (url? : Option String) (qs : QuerySync)
    (outcome : FetchOutcome) : QueryDone :=
  if qs.dispatched then
    match outcome with
    | FetchOutcome.success =>
      { finalState := { qs.stMid with loadingData := false },
        trace := [Event.unfreeze,
          Event.pushQueue (encodeKey url? qs.newParams) cfg.retain_number],
        rejects := false }
    | FetchOutcome.failure =>
      { finalState := { qs.stMid with loadingData := false, params := qs.oldParams },
        trace := [Event.unfreeze], rejects := false }
  else
    { finalState := qs.stMid, trace := [], rejects := false }

/-- `initialQuery(url, params)`: sets `this.state.url` and delegates to
`query(params, url, true)`. -/
def initialQuerySync (cfg : Config) (preLoader : Option PreFn) (store : Store)
    (st : CState) (url : String) (params : Params) (now : Int) : QuerySync :=
  querySync cfg preLoader store { st with url := some url } params (some url)
    true now

/-- Modelled from the spec: the store action `queryEntities` (in
queriedEntityActions.js, not part of the provided sources) immediately
writes a LOADING sentinel record at the derived key when `markLoading` is
set, and leaves the cache unchanged otherwise, before the network call
completes. -/
def applyFetchStart (c : Cache) (key : String) (markLoading : Bool) : Cache :=
  if markLoading then (key, CacheRecord.loading) :: c else c

/-- JS truthiness check on the stored url: `undefined` and the empty string
are falsy. -/
def urlFalsy : Option String → Bool
  | none => true
  | some u => u = ""

/-- `delete` normalization: a bare identifier string becomes `\x7bid: entity\x7d`. -/
def normalizeDelete : Entity → Entity
  | Entity.ident s => Entity.obj [("id", s)]
  | e => e

/-- The dispatched mutation action, carrying the entity after any
normalization. -/
structure MutDone where
  trace : List Event
  rejects : Bool
  deriving DecidableEq, Repr

/-- The mutation methods `create`, `update`, `patch` and `delete` translated
from queriedEntity.js: `checkSetup` throws synchronously when the url is
falsy (`Except.error` with the thrown message); otherwise the method
freezes, dispatches the mutation, and on success the then-handler
unfreezes and re-issues `query()` with the active params; on failure there
is no catch-handler, so the returned promise rejects with no further
events. -/
def mutate (cfg : Config) (st : CState) (kind : MutKind) (entity : Entity)
    (outcome : FetchOutcome) : Except String MutDone :=
  if urlFalsy st.url then
    Except.error ("No url specified for " ++ cfg.entityName)
  else
    let e := if kind = MutKind.delete then normalizeDelete entity else entity
    match outcome with
    | FetchOutcome.success =>
      Except.ok
        { trace := [Event.freeze, Event.mutateDispatch kind e, Event.unfreeze,
            Event.queryRefresh st.params]
          rejects := false }
    | FetchOutcome.failure =>
      Except.ok
        { trace := [Event.freeze, Event.mutateDispatch kind e]
          rejects := true }

/-! ### Helper lemmas about the embedded operations -/

theorem find?_and_of_imp {α : Type} {l : List α} {p f : α → Bool}
    (h : ∀ x ∈ l, f x = true → p x = true) :
    (l.find? fun x => decide (p x = true ∧ f x = true)) = l.find? f := by
  induction l with
  | nil => rfl
  | cons x xs ih =>
    by_cases hf : f x = true
    · have hp : p x = true := h x (List.mem_cons_self x xs) hf
      rw [List.find?_cons_of_pos _ (by simp [hp, hf]),
        List.find?_cons_of_pos _ hf]
    · rw [List.find?_cons_of_neg _ (by simp [hf]),
        List.find?_cons_of_neg _ (by simp [hf])]
      exact ih fun y hy => h y (List.mem_cons_of_mem x hy)

/-- Property lookup on a JS spread `\x7b...a, ...b\x7d`: the value from `b` when
`b` binds the key, else the value from `a`. -/
theorem getParam_jsMerge (a b : Params) (k : String) :
    getParam (jsMerge a b) k = (getParam b k).or (getParam a k) := by
  unfold getParam jsMerge
  rw [List.find?_append, List.find?_map]
  have hcomp : ∀ p : String × String,
      ((fun p : String × String => p.1 == k) ∘ fun p =>
        match b.find? fun q => q.1 == p.1 with
        | some q => (p.1, q.2)
        | none => p) p = (p.1 == k) := by
    intro p
    simp only [Function.comp_apply]
    cases b.find? fun q => q.1 == p.1 <;> rfl
  rw [funext hcomp]
  rw [List.find?_filter]
  cases ha : a.find? fun p => p.1 == k with
  | some p0 =>
    have hk : p0.1 = k := by
      have := List.find?_some ha
      exact beq_iff_eq.mp this
    cases hb : b.find? fun q => q.1 == k with
    | some q0 =>
      simp only [ha, Option.map_some, hb, hk, Option.or]
      simp [hb, hk]
    | none =>
      simp only [ha, Option.map_some, hb, hk, Option.or]
      simp [hb, hk]
  | none =>
    have hnone : ∀ x ∈ a, ¬((fun p : String × String => p.1 == k) x = true) :=
      List.find?_eq_none.mp ha
    cases hb : b.find? fun q => q.1 == k with
    | some q0 =>
      have himp : ∀ x ∈ b, ((fun p : String × String => p.1 == k) x = true) →
          ((fun q => !(a.any fun p => p.1 == q.1)) x = true) := by
        intro x _ hx
        have hxk : x.1 = k := beq_iff_eq.mp hx
        simp only [Bool.not_eq_true']
        rw [List.any_eq_false]
        intro y hy
        have := hnone y hy
        simp only [hxk]
        simpa using this
      rw [find?_and_of_imp himp, hb]
      simp [ha, Option.or]
    | none =>
      have hcombined : (b.find? fun x =>
          decide ((!(a.any fun p => p.1 == x.1)) = true ∧
            ((fun p : String × String => p.1 == k) x) = true)) = none := by
        rw [List.find?_eq_none]
        intro x hx
        have := List.find?_eq_none.mp hb x hx
        simp only [decide_eq_true_eq, not_and]
        intro _
        simpa using this
      rw [hcombined]
      simp [ha, Option.or]

theorem find?_key_self {p : Params} (h : (p.map Prod.fst).Nodup) {e : String × String}
    (he : e ∈ p) : (p.find? fun q => q.1 == e.1) = some e := by
  induction p with
  | nil => cases he
  | cons x xs ih =>
    rcases List.mem_cons.mp he with rfl | he2
    · exact List.find?_cons_of_pos _ (by simp)
    · have hx : ¬((fun q : String × String => q.1 == e.1) x) = true := by
        simp only [beq_iff_eq]
        intro hcontra
        exact (List.nodup_cons.mp h).1 (hcontra ▸ List.mem_map_of_mem Prod.fst he2)
      rw [List.find?_cons_of_neg (p := fun q : String × String => q.1 == e.1) xs hx]
      exact ih (List.nodup_cons.mp h).2 he2

/-- JS spread of an object with itself: `\x7b...p, ...p\x7d = p` (parameter objects
have no duplicate keys). -/
theorem jsMerge_self {p : Params} (h : (p.map Prod.fst).Nodup) : jsMerge p p = p := by
  unfold jsMerge
  have h1 : (p.map fun q =>
      match p.find? fun r => r.1 == q.1 with
      | some r => (q.1, r.2)
      | none => q) = p := by
    have := List.map_congr_left (l := p)
      (f := fun q : String × String =>
        match p.find? fun r => r.1 == q.1 with
        | some r => (q.1, r.2)
        | none => q)
      (g := id) ?_
    · simpa using this
    · intro e he
      show (match p.find? fun r => r.1 == e.1 with
        | some r => (e.1, r.2)
        | none => e) = id e
      rw [find?_key_self h he]
      rfl
  have h2 : (p.filter fun q => !(p.any fun r => r.1 == q.1)) = [] := by
    rw [List.filter_eq_nil_iff]
    intro q hq
    simp only [Bool.not_eq_true', Bool.not_eq_false]
    rw [List.any_eq_true]
    exact ⟨q, hq, by simp⟩
  rw [h1, h2, List.append_nil]

/-- Every event emitted by `preload` is either the predictor consultation or
a speculative fetch, with `markLoading` and `isPreload` set, for a merged
parameter set whose cache key has no record. -/
theorem preload_mem {cfg : Config} {preLoader : Option PreFn} {store : Store}
    {stParams params : Params} {url? : Option String} {e : Event}
    (he : e ∈ preload cfg preLoader store stParams params url?) :
    e = Event.consultPredictor ∨
      ∃ fp, e = Event.fetch (urlString url?) fp true true cfg.smartPreload ∧
        cacheGet store.cache (encodeKey url? fp) = none := by
  cases preLoader with
  | none => cases he
  | some f =>
    simp only [preload] at he
    split at he
    · cases he
    · rcases List.mem_cons.mp he with rfl | he2
      · exact Or.inl rfl
      · refine Or.inr ?_
        rcases List.mem_filterMap.mp he2 with ⟨p, _, hp⟩
        cases hc : cacheGet store.cache (encodeKey url? (jsMerge stParams p)) with
        | some r =>
          rw [hc] at hp
          cases hp
        | none =>
          rw [hc] at hp
          exact ⟨jsMerge stParams p, (Option.some.inj hp).symm, hc⟩

theorem querySync_oldParams (cfg : Config) (preLoader : Option PreFn)
    (store : Store) (st : CState) (params : Params) (url? : Option String)
    (initial : Bool) (now : Int) :
    (querySync cfg preLoader store st params url? initial now).oldParams =
      (if initial then params else st.params) := rfl

theorem querySync_newParams (cfg : Config) (preLoader : Option PreFn)
    (store : Store) (st : CState) (params : Params) (url? : Option String)
    (initial : Bool) (now : Int) :
    (querySync cfg preLoader store st params url? initial now).newParams =
      jsMerge (if initial then params else st.params) params := rfl

theorem querySync_stMid (cfg : Config) (preLoader : Option PreFn)
    (store : Store) (st : CState) (params : Params) (url? : Option String)
    (initial : Bool) (now : Int) :
    (querySync cfg preLoader store st params url? initial now).stMid =
      { st with
          params := jsMerge (if initial then params else st.params) params
          loadingData := true } := rfl

theorem querySync_dispatched (cfg : Config) (preLoader : Option PreFn)
    (store : Store) (st : CState) (params : Params) (url? : Option String)
    (initial : Bool) (now : Int) :
    (querySync cfg preLoader store st params url? initial now).dispatched =
      shouldLoad now cfg.preloadValidTime (cacheGet store.cache
        (encodeKey url? (jsMerge (if initial then params else st.params) params))) := rfl

theorem querySync_markLoading (cfg : Config) (preLoader : Option PreFn)
    (store : Store) (st : CState) (params : Params) (url? : Option String)
    (initial : Bool) (now : Int) :
    (querySync cfg preLoader store st params url? initial now).markLoading =
      decide (cacheGet store.cache
        (encodeKey url? (jsMerge (if initial then params else st.params) params)) = none) := rfl

theorem querySync_trace (cfg : Config) (preLoader : Option PreFn)
    (store : Store) (st : CState) (params : Params) (url? : Option String)
    (initial : Bool) (now : Int) :
    (querySync cfg preLoader store st params url? initial now).trace =
      (if cacheGet store.cache
          (encodeKey url? (jsMerge (if initial then params else st.params) params)) = none ∨
          ¬ cfg.hideLoadIfDataFound then [Event.freeze] else []) ++
      preload cfg preLoader store
        (jsMerge (if initial then params else st.params) params) params url? ++
      (if shouldLoad now cfg.preloadValidTime (cacheGet store.cache
          (encodeKey url? (jsMerge (if initial then params else st.params) params))) then
        [Event.fetch (urlString url?)
          (jsMerge (if initial then params else st.params) params)
          (decide (cacheGet store.cache
            (encodeKey url? (jsMerge (if initial then params else st.params) params)) = none))
          false cfg.smartPreload]
      else []) := rfl

/-! ### Concrete fixtures used by scenario theorems and witnesses -/

/-- A configuration with all options at the source defaults (entity type
"user"). -/
def defaultCfg : Config :=
  { entityName := "user", hideLoadIfDataFound := true,
    retain_number := RETAIN_NUMBER, preloadValidTime := PRELOAD_VALID_TIME,
    smartPreload := false, smartThresholdTime := SMART_THRESHOLD_TIME }

/-- An empty store: no cached queries, untouched network timer. -/
def emptyStore : Store :=
  { cache := [], networkTimer := { average := 0, numberOfCalls := 0 } }

/-- The pristine component state before `initialQuery`. -/
def initState : CState :=
  { url := none, params := [], loadingData := false }

/-! ### The claims -/

/-- C1: the freshness evaluator `shouldLoad` returns true when no cache
record exists; false when the record is the LOADING sentinel; false when
the record carries `preloadedAt = t0` and the current time `t` satisfies
`t - t0 < preloadValidTime`; and true in every other case, including
`t - t0 >= preloadValidTime` and a record with no `preloadedAt`. -/
theorem shouldLoad_freshness (now vt : Int) :
    shouldLoad now vt none = true ∧
    shouldLoad now vt (some CacheRecord.loading) = false ∧
    (∀ t0 : Int, now - t0 < vt →
      shouldLoad now vt (some (CacheRecord.entry (some t0))) = false) ∧
    (∀ t0 : Int, vt ≤ now - t0 →
      shouldLoad now vt (some (CacheRecord.entry (some t0))) = true) ∧
    shouldLoad now vt (some (CacheRecord.entry none)) = true := by
  refine ⟨rfl, rfl, ?_, ?_, rfl⟩
  · intro t0 h
    simp [shouldLoad, h]
  · intro t0 h
    simp [shouldLoad, not_lt_of_ge h]

/-- Witness for C1 at concrete times: no record and an expired preload load;
the sentinel and a fresh preload do not. -/
theorem shouldLoad_freshness_witness :
    shouldLoad 5 10 none = true ∧
    shouldLoad 5 10 (some CacheRecord.loading) = false ∧
    shouldLoad 5 10 (some (CacheRecord.entry (some 0))) = false ∧
    shouldLoad 20 10 (some (CacheRecord.entry (some 0))) = true :=
  ⟨(shouldLoad_freshness 5 10).1, (shouldLoad_freshness 5 10).2.1,
    (shouldLoad_freshness 5 10).2.2.1 0 (by decide),
    (shouldLoad_freshness 20 10).2.2.2.1 0 (by decide)⟩

/-- C7: any mutation invoked before `initialQuery` has set a url throws
synchronously (the call chain ends in `Except.error`, not in a rejected
promise) and dispatches nothing. -/
theorem mutation_before_setup_throws (cfg : Config) (st : CState)
    (kind : MutKind) (entity : Entity) (outcome : FetchOutcome)
    (h : st.url = none) :
    mutate cfg st kind entity outcome =
      Except.error ("No url specified for " ++ cfg.entityName) := by
  unfold mutate
  rw [h]
  rfl

/-- Witness for C7: `create` on the pristine state fails synchronously. -/
theorem mutation_before_setup_throws_witness :
    mutate defaultCfg initState MutKind.create (Entity.obj [("name", "x")])
      FetchOutcome.success = Except.error "No url specified for user" :=
  mutation_before_setup_throws _ _ _ _ _ rfl

/-- C8: a non-initial query shallow-merges the new params over the active
ones (new keys overlay old ones, unmentioned old keys are kept); an
initial query takes the supplied params as the full parameter set. -/
theorem query_merge_params (cfg : Config) (preLoader : Option PreFn)
    (store : Store) (st : CState) (params : Params) (url? : Option String)
    (now : Int) (hnd : (params.map Prod.fst).Nodup) :
    (querySync cfg preLoader store st params url? true now).newParams = params ∧
    (∀ k v, getParam params k = some v →
      getParam (querySync cfg preLoader store st params url? false now).newParams k =
        some v) ∧
    (∀ k, getParam params k = none →
      getParam (querySync cfg preLoader store st params url? false now).newParams k =
        getParam st.params k) := by
  refine ⟨?_, ?_, ?_⟩
  · rw [querySync_newParams]
    simpa using jsMerge_self hnd
  · intro k v h
    rw [querySync_newParams]
    simp only [if_neg Bool.false_ne_true, getParam_jsMerge, h, Option.or]
  · intro k h
    rw [querySync_newParams]
    simp only [if_neg Bool.false_ne_true, getParam_jsMerge, h, Option.or]

/-- The component state after an initial query for "/users" with
`\x7bsize: 5\x7d` active. -/
def activeState : CState :=
  { url := some "u", params := [("size", "5")], loadingData := false }

/-- Witness for C8: initial query keeps the supplied params, a non-initial
query overlays them on the active ones. -/
theorem query_merge_params_witness :
    (querySync defaultCfg none emptyStore activeState [("page", "1")]
      (some "u") true 0).newParams = [("page", "1")] ∧
    getParam (querySync defaultCfg none emptyStore activeState [("page", "1")]
      (some "u") false 0).newParams "size" = some "5" :=
  ⟨(query_merge_params _ _ _ _ _ _ _ (by decide)).1,
    ((query_merge_params defaultCfg none emptyStore activeState [("page", "1")]
      (some "u") 0 (by decide)).2.2 "size" (by decide)).trans (by decide)⟩

/-- C2: a query whose key holds the LOADING sentinel dispatches no fetch
for that key and resolves immediately; an initial query with no cached
data and no predictor dispatches exactly one fetch, with markLoading set;
and a concurrent query for the same key, issued after that fetch has
marked the key LOADING, dispatches no fetch at all. -/
theorem query_loading_dedup (cfg : Config) (now : Int) :
    (∀ (preLoader : Option PreFn) (store : Store) (st : CState)
      (params : Params) (url? : Option String) (initial : Bool)
      (outcome : FetchOutcome),
      cacheGet store.cache (encodeKey url?
        (querySync cfg preLoader store st params url? initial now).newParams) =
        some CacheRecord.loading →
      (querySync cfg preLoader store st params url? initial now).dispatched = false ∧
      (∀ u fp ml ip as, Event.fetch u fp ml ip as ∈
          (querySync cfg preLoader store st params url? initial now).trace →
        encodeKey url? fp ≠ encodeKey url?
          (querySync cfg preLoader store st params url? initial now).newParams) ∧
      (queryComplete cfg url?
        (querySync cfg preLoader store st params url? initial now) outcome).trace = [] ∧
      (queryComplete cfg url?
        (querySync cfg preLoader store st params url? initial now) outcome).rejects = false) ∧
    (∀ (store : Store) (st : CState) (url : String) (params : Params),
      (params.map Prod.fst).Nodup →
      cacheGet store.cache (encodeKey (some url) params) = none →
      (initialQuerySync cfg none store st url params now).trace =
        [Event.freeze, Event.fetch url params true false cfg.smartPreload] ∧
      ((querySync cfg none
        { store with cache :=
            applyFetchStart store.cache (encodeKey (some url) params) true }
        (initialQuerySync cfg none store st url params now).stMid
        params (some url) false now).dispatched = false ∧
      ∀ e ∈ (querySync cfg none
        { store with cache :=
            applyFetchStart store.cache (encodeKey (some url) params) true }
        (initialQuerySync cfg none store st url params now).stMid
        params (some url) false now).trace, isFetchEvent e = false)) := by
  constructor
  · intro preLoader store st params url? initial outcome h
    rw [querySync_newParams] at h
    have hsl : shouldLoad now cfg.preloadValidTime (cacheGet store.cache
        (encodeKey url? (jsMerge (if initial then params else st.params) params))) = false := by
      rw [h]
      rfl
    have hdisp : (querySync cfg preLoader store st params url? initial now).dispatched = false := by
      rw [querySync_dispatched]
      exact hsl
    refine ⟨hdisp, ?_, ?_, ?_⟩
    · intro u fp ml ip as hmem
      rw [querySync_trace, hsl] at hmem
      simp only [Bool.false_eq_true, if_false, List.append_nil] at hmem
      rcases List.mem_append.mp hmem with hmem3 | hmem4
      · revert hmem3
        split <;> intro hmem3 <;> simp at hmem3
      · rcases preload_mem hmem4 with h4 | ⟨fp2, heq, hc⟩
        · cases h4
        · cases heq
          rw [querySync_newParams]
          intro hkey
          rw [hkey, h] at hc
          cases hc
    · unfold queryComplete
      rw [hdisp]
      rfl
    · unfold queryComplete
      rw [hdisp]
      rfl
  · intro store st url params hnd hc
    have hm : jsMerge params params = params := jsMerge_self hnd
    constructor
    · unfold initialQuerySync
      rw [querySync_trace]
      simp [hm, hc, preload, shouldLoad, urlString]
    · have hlookup : cacheGet
          (applyFetchStart store.cache (encodeKey (some url) params) true)
          (encodeKey (some url) params) = some CacheRecord.loading := by
        unfold applyFetchStart cacheGet
        simp [List.lookup]
      have hmid : (initialQuerySync cfg none store st url params now).stMid.params = params := by
        unfold initialQuerySync
        rw [querySync_stMid]
        simpa using hm
      constructor
      · rw [querySync_dispatched]
        simp only [if_neg Bool.false_ne_true, hmid, hm, hlookup]
        rfl
      · intro e he
        rw [querySync_trace] at he
        simp only [if_neg Bool.false_ne_true, hmid, hm, hlookup, shouldLoad,
          Bool.false_eq_true, if_false, List.append_nil, preload] at he
        revert he
        split <;> intro he
        · rcases List.mem_singleton.mp he with rfl
          rfl
        · cases he

/-- The store as it looks while the initial fetch for `page=1` is in
flight: the key holds the LOADING sentinel. -/
def loadingStore : Store :=
  { cache := [(encodeKey (some "u") [("page", "1")], CacheRecord.loading)],
    networkTimer := { average := 0, numberOfCalls := 0 } }

/-- Witness for C2: the initial query on an empty store emits exactly one
fetch with markLoading set, and a query against the in-flight LOADING
record dispatches nothing. -/
theorem query_loading_dedup_witness :
    (initialQuerySync defaultCfg none emptyStore initState "u" [("page", "1")] 0).trace =
      [Event.freeze, Event.fetch "u" [("page", "1")] true false false] ∧
    (querySync defaultCfg none loadingStore
      { url := some "u", params := [("page", "1")], loadingData := true }
      [("page", "1")] (some "u") false 0).dispatched = false :=
  ⟨((query_loading_dedup defaultCfg 0).2 emptyStore initState "u" [("page", "1")]
      (by decide) (by decide)).1,
    (((query_loading_dedup defaultCfg 0).1 none loadingStore
      { url := some "u", params := [("page", "1")], loadingData := true }
      [("page", "1")] (some "u") false FetchOutcome.success) (by decide)).1⟩

/-- C4: when a dispatched (non-initial) query fetch fails, the catch
handler clears `loadingData`, restores `params` to its value immediately
before the call, unfreezes, and the returned promise still resolves (the
failure is not re-thrown to the caller). -/
theorem query_failure_rollback (cfg : Config) (preLoader : Option PreFn)
    (store : Store) (st : CState) (params : Params) (url? : Option String)
    (now : Int)
    (hd : (querySync cfg preLoader store st params url? false now).dispatched = true) :
    (queryComplete cfg url?
      (querySync cfg preLoader store st params url? false now)
      FetchOutcome.failure).finalState.params = st.params ∧
    (queryComplete cfg url?
      (querySync cfg preLoader store st params url? false now)
      FetchOutcome.failure).finalState.loadingData = false ∧
    (queryComplete cfg url?
      (querySync cfg preLoader store st params url? false now)
      FetchOutcome.failure).trace = [Event.unfreeze] ∧
    (queryComplete cfg url?
      (querySync cfg preLoader store st params url? false now)
      FetchOutcome.failure).rejects = false := by
  unfold queryComplete
  rw [hd]
  simp [querySync_oldParams]

/-- Witness for C4: a failing refresh from the active state rolls `params`
back to the active params and clears the loading flag. -/
theorem query_failure_rollback_witness :
    (queryComplete defaultCfg (some "u")
      (querySync defaultCfg none emptyStore activeState [("page", "1")]
        (some "u") false 0)
      FetchOutcome.failure).finalState.params = activeState.params ∧
    (queryComplete defaultCfg (some "u")
      (querySync defaultCfg none emptyStore activeState [("page", "1")]
        (some "u") false 0)
      FetchOutcome.failure).finalState.loadingData = false ∧
    (queryComplete defaultCfg (some "u")
      (querySync defaultCfg none emptyStore activeState [("page", "1")]
        (some "u") false 0)
      FetchOutcome.failure).trace = [Event.unfreeze] ∧
    (queryComplete defaultCfg (some "u")
      (querySync defaultCfg none emptyStore activeState [("page", "1")]
        (some "u") false 0)
      FetchOutcome.failure).rejects = false :=
  query_failure_rollback defaultCfg none emptyStore activeState [("page", "1")]
    (some "u") 0 (by decide)

/-- The trace of a successful `create` from the active state, used to
refute the claimed mutation ordering. -/
def mutTraceC6 : List Event :=
  match mutate defaultCfg activeState MutKind.create (Entity.obj [("name", "x")])
      FetchOutcome.success with
  | Except.ok d => d.trace
  | Except.error _ => []

/-- C6 counterexample: a successful `create` emits freeze, the mutation
dispatch, then unfreeze, and only then re-issues `query()` — the unfreeze
hook runs strictly before the refresh query, contradicting the claimed
freeze/dispatch/query/unfreeze order. -/
theorem mutation_unfreeze_precedes_query_cex :
    mutTraceC6 = [Event.freeze,
      Event.mutateDispatch MutKind.create (Entity.obj [("name", "x")]),
      Event.unfreeze, Event.queryRefresh [("size", "5")]] ∧
    mutTraceC6.indexOf Event.unfreeze <
      mutTraceC6.indexOf (Event.queryRefresh [("size", "5")]) := by
  decide

/-- C6 (amended): every mutation with a configured url runs freeze, then
dispatches the mutation to the store, and on success the then-handler
invokes unfreeze and only after that re-issues `query()` with the
currently active params; on failure the rejected future is propagated to
the caller and unfreeze is never invoked. -/
theorem mutation_order (cfg : Config) (st : CState) (kind : MutKind)
    (entity : Entity) (h : urlFalsy st.url = false) :
    mutate cfg st kind entity FetchOutcome.success = Except.ok
      { trace := [Event.freeze,
          Event.mutateDispatch kind
            (if kind = MutKind.delete then normalizeDelete entity else entity),
          Event.unfreeze, Event.queryRefresh st.params]
        rejects := false } ∧
    mutate cfg st kind entity FetchOutcome.failure = Except.ok
      { trace := [Event.freeze,
          Event.mutateDispatch kind
            (if kind = MutKind.delete then normalizeDelete entity else entity)]
        rejects := true } ∧
    (∀ d, mutate cfg st kind entity FetchOutcome.failure = Except.ok d →
      Event.unfreeze ∉ d.trace) := by
  refine ⟨?_, ?_, ?_⟩
  · unfold mutate
    rw [h]
    rfl
  · unfold mutate
    rw [h]
    rfl
  · intro d hd
    unfold mutate at hd
    rw [h] at hd
    simp only [Bool.false_eq_true, if_false] at hd
    cases hd
    simp

/-- Witness for C6 (amended): a successful `delete` by bare identifier from
the active state, with the identifier normalized to an object. -/
theorem mutation_order_witness :
    mutate defaultCfg activeState MutKind.delete (Entity.ident "7")
      FetchOutcome.success = Except.ok
      { trace := [Event.freeze,
          Event.mutateDispatch MutKind.delete (Entity.obj [("id", "7")]),
          Event.unfreeze, Event.queryRefresh [("size", "5")]]
        rejects := false } :=
  ((mutation_order defaultCfg activeState MutKind.delete (Entity.ident "7")
    (by decide)).1).trans (by rfl)

/-- C10: every fetch dispatched during a query (direct or preload path)
carries markLoading iff its key had no record; in particular a stale
record that `shouldLoad` wants refetched is refetched with
markLoading = false, so the fetch start leaves the cache — and the cached
record — untouched while the refresh is in flight. -/
theorem query_stale_refetch_keeps_record (cfg : Config)
    (preLoader : Option PreFn) (store : Store) (st : CState) (params : Params)
    (url? : Option String) (initial : Bool) (now : Int) :
    (∀ u fp ml ip as, Event.fetch u fp ml ip as ∈
        (querySync cfg preLoader store st params url? initial now).trace →
      (ml = true ↔ cacheGet store.cache (encodeKey url? fp) = none)) ∧
    (∀ r, cacheGet store.cache (encodeKey url?
        (querySync cfg preLoader store st params url? initial now).newParams) =
        some r →
      (querySync cfg preLoader store st params url? initial now).markLoading = false ∧
      applyFetchStart store.cache
        (encodeKey url? (querySync cfg preLoader store st params url? initial now).newParams)
        (querySync cfg preLoader store st params url? initial now).markLoading =
        store.cache ∧
      cacheGet (applyFetchStart store.cache
        (encodeKey url? (querySync cfg preLoader store st params url? initial now).newParams)
        (querySync cfg preLoader store st params url? initial now).markLoading)
        (encodeKey url? (querySync cfg preLoader store st params url? initial now).newParams) =
        some r ∧
      ((querySync cfg preLoader store st params url? initial now).dispatched = true →
        Event.fetch (urlString url?)
          (querySync cfg preLoader store st params url? initial now).newParams
          false false cfg.smartPreload ∈
          (querySync cfg preLoader store st params url? initial now).trace)) := by
  constructor
  · intro u fp ml ip as hmem
    rw [querySync_trace] at hmem
    rcases List.mem_append.mp hmem with hmem1 | hmem2
    · rcases List.mem_append.mp hmem1 with hmem3 | hmem4
      · exact absurd hmem3 (by split <;> simp)
      · rcases preload_mem hmem4 with h4 | ⟨fp2, heq, hc⟩
        · cases h4
        · cases heq
          simp [hc]
    · by_cases hsl : shouldLoad now cfg.preloadValidTime (cacheGet store.cache
        (encodeKey url? (jsMerge (if initial then params else st.params) params))) = true
      · rw [if_pos hsl] at hmem2
        have heq := List.mem_singleton.mp hmem2
        cases heq
        simp
      · rw [if_neg hsl] at hmem2
        cases hmem2
  · intro r hr
    rw [querySync_newParams] at hr
    have hml : (querySync cfg preLoader store st params url? initial now).markLoading = false := by
      rw [querySync_markLoading, hr]
      simp
    have happ : applyFetchStart store.cache
        (encodeKey url? (querySync cfg preLoader store st params url? initial now).newParams)
        (querySync cfg preLoader store st params url? initial now).markLoading =
        store.cache := by
      rw [hml]
      rfl
    refine ⟨hml, happ, ?_, ?_⟩
    · rw [happ, querySync_newParams]
      exact hr
    · intro hd
      rw [querySync_dispatched] at hd
      rw [querySync_trace, querySync_newParams]
      refine List.mem_append.mpr (Or.inr ?_)
      rw [hd, hr]
      simp
/-- The store holding a record for `page=1` that was preloaded at time 0;
at `now = 20000` with the default 10000 ms window the record is stale. -/
def staleStore1 : Store :=
  { cache := [(encodeKey (some "u") [("page", "1")], CacheRecord.entry (some 0))],
    networkTimer := { average := 0, numberOfCalls := 0 } }

/-- Witness for C10: the stale `page=1` record triggers a dispatched
refetch with markLoading = false, leaving the record in place. -/
theorem query_stale_refetch_keeps_record_witness :
    (querySync defaultCfg none staleStore1 initState [("page", "1")]
      (some "u") false 20000).markLoading = false ∧
    applyFetchStart staleStore1.cache
      (encodeKey (some "u") (querySync defaultCfg none staleStore1 initState
        [("page", "1")] (some "u") false 20000).newParams)
      (querySync defaultCfg none staleStore1 initState [("page", "1")]
        (some "u") false 20000).markLoading = staleStore1.cache ∧
    Event.fetch "u" (querySync defaultCfg none staleStore1 initState
        [("page", "1")] (some "u") false 20000).newParams false false false ∈
      (querySync defaultCfg none staleStore1 initState [("page", "1")]
        (some "u") false 20000).trace := by
  have h := (query_stale_refetch_keeps_record defaultCfg none staleStore1
    initState [("page", "1")] (some "u") false 20000).2
    (CacheRecord.entry (some 0)) (by decide)
  exact ⟨h.1, h.2.1, h.2.2.2 (by decide)⟩

/-- The predicted parameter sets and the gating of the preload planner:
the predictor consultation appears in the trace, and each predicted set
yields a fetch exactly when its merged key has no record. Shared backbone
for the preload claims. -/
theorem preload_fetch_iff (cfg : Config) (f : PreFn) (store : Store)
    (stParams params : Params) (url? : Option String)
    (hgate : ¬(cfg.smartPreload = true ∧ store.networkTimer.numberOfCalls > 3 ∧
      store.networkTimer.average > cfg.smartThresholdTime)) :
    Event.consultPredictor ∈ preload cfg (some f) store stParams params url? ∧
    ∀ p ∈ f params (jsMerge stParams params)
        (cacheGet store.cache (encodeKey url? params)),
      (Event.fetch (urlString url?) (jsMerge stParams p) true true cfg.smartPreload ∈
          preload cfg (some f) store stParams params url? ↔
        cacheGet store.cache (encodeKey url? (jsMerge stParams p)) = none) := by
  have hpre : preload cfg (some f) store stParams params url? =
      Event.consultPredictor ::
        (f params (jsMerge stParams params)
          (cacheGet store.cache (encodeKey url? params))).filterMap (fun p =>
          match cacheGet store.cache (encodeKey url? (jsMerge stParams p)) with
          | some _ => none
          | none => some (Event.fetch (urlString url?) (jsMerge stParams p)
              true true cfg.smartPreload)) := by
    simp only [preload]
    rw [if_neg hgate]
  rw [hpre]
  refine ⟨List.mem_cons_self _ _, ?_⟩
  intro p hp
  constructor
  · intro hmem
    rcases List.mem_cons.mp hmem with heq | hmem2
    · cases heq
    · rcases List.mem_filterMap.mp hmem2 with ⟨p2, _, hp2⟩
      cases hc2 : cacheGet store.cache (encodeKey url? (jsMerge stParams p2)) with
      | some r =>
        rw [hc2] at hp2
        cases hp2
      | none =>
        rw [hc2] at hp2
        have hfp : jsMerge stParams p2 = jsMerge stParams p := by
          have := Option.some.inj hp2
          exact (Event.fetch.injEq _ _ _ _ _ _ _ _ _ _).mp this |>.2.1
        rw [hfp] at hc2
        exact hc2
  · intro hc
    refine List.mem_cons_of_mem _ (List.mem_filterMap.mpr ⟨p, hp, ?_⟩)
    rw [hc]

/-- C3: with smart preload enabled and a predictor registered, preload
planning is skipped entirely — no events at all, so no speculative fetch
and no predictor consultation — iff the network timer records more than 3
calls with an average above the threshold; otherwise the predictor is
consulted and a fetch is issued exactly for the predicted sets whose
merged key has no record. -/
theorem preload_smart_gate (cfg : Config) (f : PreFn) (store : Store)
    (stParams params : Params) (url? : Option String)
    (hs : cfg.smartPreload = true) :
    (preload cfg (some f) store stParams params url? = [] ↔
      (store.networkTimer.numberOfCalls > 3 ∧
        store.networkTimer.average > cfg.smartThresholdTime)) ∧
    (¬(store.networkTimer.numberOfCalls > 3 ∧
        store.networkTimer.average > cfg.smartThresholdTime) →
      Event.consultPredictor ∈ preload cfg (some f) store stParams params url? ∧
      ∀ p ∈ f params (jsMerge stParams params)
          (cacheGet store.cache (encodeKey url? params)),
        (Event.fetch (urlString url?) (jsMerge stParams p) true true cfg.smartPreload ∈
            preload cfg (some f) store stParams params url? ↔
          cacheGet store.cache (encodeKey url? (jsMerge stParams p)) = none)) := by
  constructor
  · constructor
    · intro hempty
      by_contra hx
      have := (preload_fetch_iff cfg f store stParams params url?
        (fun hand => hx hand.2)).1
      rw [hempty] at this
      cases this
    · intro hx
      simp only [preload]
      rw [if_pos ⟨hs, hx⟩]
  · intro hx
    exact preload_fetch_iff cfg f store stParams params url? (fun hand => hx hand.2)

/-- The smart-preload configuration of the C3 scenario: threshold 300 ms. -/
def smartCfg : Config :=
  { entityName := "user", hideLoadIfDataFound := true,
    retain_number := RETAIN_NUMBER, preloadValidTime := PRELOAD_VALID_TIME,
    smartPreload := true, smartThresholdTime := SMART_THRESHOLD_TIME }

/-- A predictor that always proposes `page=2`. -/
def pagePredictor : PreFn := fun _ _ _ => [[("page", "2")]]

/-- Network timer after 4 calls averaging 400 ms (empty cache). -/
def slowStore : Store :=
  { cache := [], networkTimer := { average := 400, numberOfCalls := 4 } }

/-- Network timer after 4 calls averaging 200 ms (empty cache). -/
def fastStore : Store :=
  { cache := [], networkTimer := { average := 200, numberOfCalls := 4 } }

/-- Witness for C3: at 400 ms average the planner emits nothing; at 200 ms
average the predicted, uncached `page=2` set is fetched. -/
theorem preload_smart_gate_witness :
    preload smartCfg (some pagePredictor) slowStore [] [("page", "1")]
      (some "u") = [] ∧
    Event.fetch "u" (jsMerge [] [("page", "2")]) true true true ∈
      preload smartCfg (some pagePredictor) fastStore [] [("page", "1")]
        (some "u") :=
  ⟨(preload_smart_gate smartCfg pagePredictor slowStore [] [("page", "1")]
      (some "u") rfl).1.mpr (by decide),
    (((preload_smart_gate smartCfg pagePredictor fastStore [] [("page", "1")]
      (some "u") rfl).2 (by decide)).2 [("page", "2")] (by decide)).mpr (by decide)⟩

/-- The store holding a record for the predicted merged set `page=2`,
preloaded at time 0; at `now = 20000` with the default 10000 ms window the
freshness evaluator wants it refetched. -/
def staleStore2 : Store :=
  { cache := [(encodeKey (some "u") [("page", "2")], CacheRecord.entry (some 0))],
    networkTimer := { average := 0, numberOfCalls := 0 } }

/-- C5 counterexample: the freshness evaluator calls for a refetch of the
expired preloaded record at the predicted merged key, yet the preload
executor issues no fetch at all — it skips on bare record existence and
never consults `shouldLoad`. -/
theorem preload_ignores_freshness_cex :
    shouldLoad 20000 defaultCfg.preloadValidTime
      (cacheGet staleStore2.cache
        (encodeKey (some "u") (jsMerge [] [("page", "2")]))) = true ∧
    [("page", "2")] ∈ pagePredictor [("page", "1")] (jsMerge [] [("page", "1")])
      (cacheGet staleStore2.cache (encodeKey (some "u") [("page", "1")])) ∧
    (preload defaultCfg (some pagePredictor) staleStore2 [] [("page", "1")]
      (some "u")).filter isFetchEvent = [] := by
  decide

/-- C5 (amended): the preload executor performs a bare existence check on
the merged key — a speculative fetch is issued iff no record exists there,
so stale preloaded records are not refetched by preload — while the direct
query path alone routes its fetch decision through the freshness
evaluator `shouldLoad`. -/
theorem preload_existence_query_freshness (cfg : Config) (f : PreFn)
    (store : Store) (stParams params : Params) (url? : Option String)
    (hgate : ¬(cfg.smartPreload = true ∧ store.networkTimer.numberOfCalls > 3 ∧
      store.networkTimer.average > cfg.smartThresholdTime)) :
    (∀ p ∈ f params (jsMerge stParams params)
        (cacheGet store.cache (encodeKey url? params)),
      (Event.fetch (urlString url?) (jsMerge stParams p) true true cfg.smartPreload ∈
          preload cfg (some f) store stParams params url? ↔
        cacheGet store.cache (encodeKey url? (jsMerge stParams p)) = none)) ∧
    (∀ (preLoader : Option PreFn) (st : CState) (params2 : Params)
      (initial : Bool) (now : Int),
      (querySync cfg preLoader store st params2 url? initial now).dispatched =
        shouldLoad now cfg.preloadValidTime (cacheGet store.cache (encodeKey url?
          (querySync cfg preLoader store st params2 url? initial now).newParams))) := by
  refine ⟨(preload_fetch_iff cfg f store stParams params url? hgate).2, ?_⟩
  intro preLoader st params2 initial now
  rw [querySync_dispatched, querySync_newParams]

/-- Witness for C5 (amended): on an empty store the predicted `page=2` set
is fetched, and a direct query dispatch equals the `shouldLoad` verdict. -/
theorem preload_existence_query_freshness_witness :
    Event.fetch "u" (jsMerge [] [("page", "2")]) true true false ∈
      preload defaultCfg (some pagePredictor) emptyStore [] [("page", "1")]
        (some "u") ∧
    (querySync defaultCfg none emptyStore initState [("page", "1")]
      (some "u") false 0).dispatched =
      shouldLoad 0 defaultCfg.preloadValidTime (cacheGet emptyStore.cache
        (encodeKey (some "u") (querySync defaultCfg none emptyStore initState
          [("page", "1")] (some "u") false 0).newParams)) :=
  ⟨((preload_existence_query_freshness defaultCfg pagePredictor emptyStore []
      [("page", "1")] (some "u") (by decide)).1 [("page", "2")]
      (by decide)).mpr (by decide),
    (preload_existence_query_freshness defaultCfg pagePredictor emptyStore []
      [("page", "1")] (some "u") (by decide)).2 none initState [("page", "1")]
      false 0⟩

/-- C9: the cache-key encoder is insensitive to parameter insertion order:
permuting the entries of the parameter object yields the same key. -/
theorem encodeAPICall_order_insensitive (url : String) (p1 p2 : Params)
    (h : p1.Perm p2) : encodeAPICall url p1 = encodeAPICall url p2 := by
  unfold encodeAPICall sortParams
  have hs : p1.insertionSort paramLE = p2.insertionSort paramLE :=
    List.eq_of_perm_of_sorted
      ((List.perm_insertionSort paramLE p1).trans
        (h.trans (List.perm_insertionSort paramLE p2).symm))
      (List.sorted_insertionSort paramLE p1)
      (List.sorted_insertionSort paramLE p2)
  rw [hs]

/-- Witness for C9 on a concrete two-entry permutation. -/
theorem encodeAPICall_order_insensitive_witness :
    encodeAPICall "u" [("b", "2"), ("a", "1")] =
      encodeAPICall "u" [("a", "1"), ("b", "2")] :=
  encodeAPICall_order_insensitive "u" _ _
    (List.Perm.swap ("a", "1") ("b", "2") [])

end RestRedux
